import Mathlib

/-!
Shallow embedding of the task scheduling and execution subsystem of the
TELERAG-MONOLITH repository (`src/Core/TaskScheduling.py`, with the timeout
lookup table from `src/source/Core/CoreUtils.py`), together with theorems
settling the specification claims about it.

Python dynamic values are embedded as `PyVal`, raised Python exceptions as
`PyExc` carried through `Except`; a call that can block forever (an
`mp.Event.wait` / queue `get` with no producer) returns `Option`, where
`none` models "never returns".  Time (`time.monotonic()`) is an explicit
rational parameter.  Mutation of a Python object is modelled by returning
the updated record; object identity is modelled with an `id` field.
-/

/-- A Python exception object, by class and message. -/
inductive PyExc where
  | runtimeError (msg : String)
  | typeError (msg : String)
  | attributeError (msg : String)
  | valueError (msg : String)
  | exception (msg : String)
  deriving DecidableEq, Repr

/-- A Python runtime value as used by the scheduling subsystem: `None`,
integers, strings, lists, dicts with string keys, and references to class
objects (such as `typing.Iterable`, which `Task.resolve` compares against
with `is`). -/
inductive PyVal where
  | none
  | int (n : Int)
  | str (s : String)
  | list (xs : List PyVal)
  | dict (xs : List (String × PyVal))
  | typeRef (name : String)
  deriving Repr

/-- Python `len(v)`: defined for strings, lists and dicts, a `TypeError`
otherwise. -/
def pyLen : PyVal → Except PyExc Nat
  | .str s => .ok s.length
  | .list xs => .ok xs.length
  | .dict xs => .ok xs.length
  | _ => .error (.typeError "object has no len()")

/-- Whether `needle` occurs as a contiguous run inside `hay` (character
lists). -/
def listInfix (needle : List Char) : List Char → Bool
  | [] => needle.isEmpty
  | c :: rest => needle.isPrefixOf (c :: rest) || listInfix needle rest

/-- Python substring test `a in b` on strings. -/
def pyStrIn (needle hay : String) : Bool :=
  listInfix needle.toList hay.toList

/-- Python `k in v` for a string key: dict key membership; a `TypeError` on
non-containers. -/
def pyContainsKey (v : PyVal) (k : String) : Except PyExc Bool :=
  match v with
  | .dict xs => .ok (xs.lookup k).isSome
  | .list xs => .ok (xs.any (fun v => match v with | .str s => s == k | _ => false))
  | .str s => .ok (pyStrIn k s)
  | _ => .error (.typeError "argument is not iterable")

/-- Python `v[k]` for a string key (dict lookup). -/
def pyGetKey (v : PyVal) (k : String) : Except PyExc PyVal :=
  match v with
  | .dict xs =>
    match xs.lookup k with
    | some r => .ok r
    | none => .error (.runtimeError ("KeyError: " ++ k))
  | _ => .error (.typeError "object is not subscriptable")

/-- Python `v[i]` for a natural index (sequence indexing). -/
def pyGetIdx (v : PyVal) (i : Nat) : Except PyExc PyVal :=
  match v with
  | .list xs =>
    match xs.get? i with
    | some r => .ok r
    | none => .error (.runtimeError "IndexError")
  | _ => .error (.typeError "object is not subscriptable")

/-- `kwargs[key] = value` on an association list: replace the binding if the
key is present, append it otherwise (Python dict assignment). -/
def pySetKw (kwargs : List (String × PyVal)) (k : String) (v : PyVal) :
    List (String × PyVal) :=
  if (kwargs.lookup k).isSome then
    kwargs.map (fun p => if p.1 = k then (k, v) else p)
  else
    kwargs ++ [(k, v)]

example : pyLen (.dict [("x", .int 5)]) = .ok 1 := rfl
example : pySetKw [] "x" (.int 5) = [("x", .int 5)] := rfl

/-- Python `x is None` on an embedded value. -/
def PyVal.isNone : PyVal → Bool
  | .none => true
  | _ => false

/-- Python `is` comparison of a value with a class object (`x is Iterable`,
`x is Dict`): true only when `x` is that very class object. -/
def PyVal.isClass : PyVal → String → Bool
  | .typeRef n, cls => n == cls
  | _, _ => false

namespace TaskScheduling

/-- State of one `Task` object from `src/Core/TaskScheduling.py`.  Fields
mirror the attributes set in `Task.__init__`; leading underscores are
dropped (`internal_priority` is `_priority`, `enqueue_time` is
`_enqueue_time`, `next` is `_next`, `past` is `_past`, `arg_deps` is
`_arg_deps`, `prev_result` is `_prev_result`, `result_event` holds whether
the `mp.Event` has been set).  The Python callable itself is not part of
the state: `is_async` records `inspect.iscoroutinefunction(func)`, and
chain neighbours are referenced by Python object identity, embedded as the
`id` field. -/
structure Task where
  id : Nat
  name : String
  args : List PyVal
  kwargs : List (String × PyVal)
  base_priority : ℚ
  internal_priority : ℚ
  enqueue_time : ℚ
  is_async : Bool
  result : PyVal
  exception : Option PyExc
  result_event : Bool
  next : Option Nat
  past : Option Nat
  arg_deps : Option (List String)
  prev_result : Option PyVal
  resolved : Bool
  deriving Repr

/-- Construction of a `Task` (`Task.__init__`): `kwargs` defaults to the
empty dict, `_priority` starts at `base_priority`, `_enqueue_time` is the
monotonic clock `now` at creation, `_arg_deps = arg_deps or None` turns an
empty list into `None`, and `resolved` is true exactly when `_arg_deps`
ends up `None`. -/
def Task.init (id : Nat) (name : String) (funcIsCoroutine : Bool)
    (args : List PyVal) (kwargs : Option (List (String × PyVal)))
    (base_priority : ℚ) (arg_deps : Option (List String)) (now : ℚ) : Task :=
  let deps : Option (List String) :=
    match arg_deps with
    | some [] => none
    | d => d
  { id := id
    name := name
    args := args
    kwargs := kwargs.getD []
    base_priority := base_priority
    internal_priority := base_priority
    enqueue_time := now
    is_async := funcIsCoroutine
    result := .none
    exception := none
    result_event := false
    next := none
    past := none
    arg_deps := deps
    prev_result := none
    resolved := deps.isNone }

/-- `Task.put_result`: writes the result slot only while it still holds
`None` (the placeholder), then sets the completion event; otherwise the
call does nothing. -/
def Task.put_result (t : Task) (result : PyVal) : Task :=
  if t.result.isNone then
    { t with result := result, result_event := true }
  else t

/-- `Task.put_exception`: writes the exception slot only while it is `None`,
then sets the completion event; otherwise the call does nothing. -/
def Task.put_exception (t : Task) (e : PyExc) : Task :=
  if t.exception.isNone then
    { t with exception := some e, result_event := true }
  else t

/-- `Task.set_next`: stores a reference to the successor task (embedded by
object identity). -/
def Task.set_next (t : Task) (nxt : Option Nat) : Task :=
  { t with next := nxt }

/-- `Task.set_prev`: stores a reference to the predecessor task (embedded by
object identity). -/
def Task.set_prev (t : Task) (prev : Option Nat) : Task :=
  { t with past := prev }

/-- `Task.priority` (property): `_priority` plus the wait time elapsed since
enqueue, read at monotonic time `now`. -/
def Task.priority (t : Task) (now : ℚ) : ℚ :=
  t.internal_priority + (now - t.enqueue_time)

/-- `Task.get`: waits on `result_event` (`none` models the wait never
returning because the event is never set), then raises the stored exception
if any, else returns the stored result. -/
def Task.get (t : Task) : Option (Except PyExc PyVal) :=
  if t.result_event then
    some (match t.exception with
          | some e => .error e
          | none => .ok t.result)
  else none

/-- Loop of `Task.resolve` in the mapping branch: for each key of
`arg_deps`, raise `RuntimeError` if the key is not in the previous result,
else copy `prev[key]` into the keyword arguments. -/
def resolveByKey (deps : List String) (prev : PyVal)
    (kwargs : List (String × PyVal)) : Except PyExc (List (String × PyVal)) :=
  match deps with
  | [] => .ok kwargs
  | k :: rest => do
    let present ← pyContainsKey prev k
    if !present then
      .error (.runtimeError ("Dependency " ++ k ++ " not found in previous task result"))
    else
      let v ← pyGetKey prev k
      resolveByKey rest prev (pySetKw kwargs k v)

/-- Loop of `Task.resolve` in the sequence branch: for position `i` and key
`k` of `arg_deps`, raise `RuntimeError` when `i >= len(prev)`, else copy
`prev[i]` into the keyword arguments under `k`. -/
def resolveByIndex (deps : List String) (i : Nat) (prev : PyVal)
    (kwargs : List (String × PyVal)) : Except PyExc (List (String × PyVal)) :=
  match deps with
  | [] => .ok kwargs
  | k :: rest => do
    let n ← pyLen prev
    if n ≤ i then
      .error (.runtimeError ("Dependency " ++ k ++ " not found in previous task result"))
    else
      let v ← pyGetIdx prev i
      resolveByIndex rest (i + 1) prev (pySetKw kwargs k v)

/-- `Task.resolve`: fetches the predecessor's result via `self._past.get()`
when `_prev_result` is not yet cached (the predecessor object referenced by
`_past` is passed explicitly; outer `none` models the blocking wait never
returning).  The Python code then tests `self._prev_result is Iterable`
and, inside that branch, `self._prev_result is Dict` — `is` identity
comparisons against the `typing` class objects — choosing key-based or
index-based copying; on every non-raising path it finally sets
`resolved = True`. -/
def Task.resolve (t : Task) (past : Task) : Option (Except PyExc Task) :=
  let fetched : Option (Except PyExc Task) :=
    if t.prev_result.isNone then
      match past.get with
      | none => none
      | some (.error e) => some (.error e)
      | some (.ok v) => some (.ok { t with prev_result := some v })
    else some (.ok t)
  match fetched with
  | none => none
  | some (.error e) => some (.error e)
  | some (.ok t1) =>
    let prev := t1.prev_result.getD .none
    if prev.isClass "typing.Iterable" then
      if prev.isClass "typing.Dict" then
        match resolveByKey (t1.arg_deps.getD []) prev t1.kwargs with
        | .error e => some (.error e)
        | .ok kw => some (.ok { t1 with kwargs := kw, resolved := true })
      else
        match resolveByIndex (t1.arg_deps.getD []) 0 prev t1.kwargs with
        | .error e => some (.error e)
        | .ok kw => some (.ok { t1 with kwargs := kw, resolved := true })
    else
      some (.ok { t1 with resolved := true })

/-- Value returned by `Task.run`: either an exception object returned as an
ordinary value (not raised), or the coroutine object produced by calling
the `async def` method `_run_async` (whose body has not started
executing). -/
inductive RunValue where
  | excObj (e : PyExc)
  | coroutine (t : Task)
  deriving Repr

/-- `Task.run`: for a coroutine task it returns (does not raise) a
`RuntimeError` object; otherwise it calls `self._run_async()`, which merely
constructs a coroutine object.  No path raises, and no path invokes the
task's callable or `_run_sync`. -/
def Task.run (t : Task) : Except PyExc RunValue :=
  if t.is_async then
    .ok (.excObj (.runtimeError "Use scheduler to run coroutine tasks"))
  else
    .ok (.coroutine t)

/-- Linking loop of `TaskChain.__init__` after the head has been taken:
`prev` is the current tail object; for each further task the loop runs
`self.tail.set_next(task)` and `task.set_prev(self.tail)` and advances the
tail. -/
def linkAux (prev : Task) : List Task → List Task
  | [] => [prev]
  | b :: rest => prev.set_next (some b.id) :: linkAux (b.set_prev (some prev.id)) rest

/-- The tasks of a chain after the linking loop of `TaskChain.__init__`. -/
def linkTasks : List Task → List Task
  | [] => []
  | a :: rest => linkAux a rest

/-- State of a `TaskChain`: the stored (linked) tasks and the `head` and
`tail` references. -/
structure TaskChain where
  tasks : List Task
  head : Option Task
  tail : Option Task
  deriving Repr

/-- `TaskChain.__init__`: stores the argument tuple, raises `RuntimeError`
when more than 15 tasks are given, and otherwise links the tasks pairwise
via `set_next`/`set_prev`, leaving `head` the first and `tail` the last
task (or `None` on an empty chain). -/
def TaskChain.init (args : List Task) : Except PyExc TaskChain :=
  if args.length > 15 then
    .error (.runtimeError "Task chain too long. Maximum length is 15 tasks.")
  else
    let linked := linkTasks args
    .ok { tasks := linked, head := linked.head?, tail := linked.getLast? }

/-- `TaskChain.get`: delegates to `self.tail.get()`; on an empty chain the
tail is `None` and the attribute access raises. -/
def TaskChain.get (c : TaskChain) : Option (Except PyExc PyVal) :=
  match c.tail with
  | none => some (.error (.attributeError "NoneType object has no attribute get"))
  | some t => t.get

/-- Pending-queue state of the `TaskScheduler` singleton: the binary heap
`_pq` is embedded as the list of its entries (which triples are stored does
not depend on the heap layout), together with `_counter`. -/
structure TaskScheduler where
  pq : List (ℚ × ℚ × Nat)
  counter : Nat
  deriving Repr

/-- `TaskScheduler.submit` at monotonic time `now`: executes
`heapq.heappush(self._pq, (task.priority, task.priority, task))` — the
entry carries the effective priority twice and the task (embedded by
identity) — and then increments `self._counter`. -/
def TaskScheduler.submit (s : TaskScheduler) (task : Task) (now : ℚ) : TaskScheduler :=
  { s with
    pq := s.pq ++ [(task.priority now, task.priority now, task.id)]
    counter := s.counter + 1 }

/-- A Python object handed to `TaskScheduler.submit`: call sites pass
either a `Task` (`push_task`) or whatever value `task_chain.get()`
returned (`push_chain`). -/
inductive PyObj where
  | task (t : Task)
  | val (v : PyVal)
  deriving Repr

/-- `CoreMultiprocessing.push_chain` evaluates
`scheduler.submit(task_chain.get())`.  The embedding returns the object
passed on to `submit`: `none` when `task_chain.get()` blocks forever,
`some (.error e)` when it raises, and `some (.ok obj)` with the submitted
object otherwise. -/
def CoreMultiprocessing.push_chain (c : TaskChain) : Option (Except PyExc PyObj) :=
  match c.get with
  | none => none
  | some (.error e) => some (.error e)
  | some (.ok v) => some (.ok (.val v))

/-- Lifecycle states of a `Worker` process. -/
inductive ProcessState where
  | IDLE
  | BUSY
  | STOPPED
  | TERMINATED
  deriving DecidableEq, Repr

/-- One `WorkerRecord` of the compositor, with the fields the dispatcher
reads and writes: the worker's pid, kind, state and stop event, and the
contents of its private task queue (tasks by identity). -/
structure WorkerRecord where
  pid : Nat
  is_async : Bool
  state : ProcessState
  stop_event : Bool
  task_queue : List Nat
  deriving DecidableEq, Repr

/-- `Worker.resume`: a no-op when the worker is IDLE or TERMINATED,
otherwise sets the stop event on which a STOPPED worker is parked. -/
def WorkerRecord.resume (r : WorkerRecord) : WorkerRecord :=
  if r.state = .IDLE ∨ r.state = .TERMINATED then r
  else { r with stop_event := true }

/-- Putting a task on a worker's private queue (`record.task_queue.put`). -/
def WorkerRecord.put (r : WorkerRecord) (tid : Nat) : WorkerRecord :=
  { r with task_queue := r.task_queue ++ [tid] }

/-- Whether a worker is in a state targeted by
`_terminate_non_busy_workers` (IDLE or STOPPED). -/
def WorkerRecord.nonBusy (r : WorkerRecord) : Bool :=
  r.state == .IDLE || r.state == .STOPPED

/-- State of the `ProcessCompositor`: the two worker lists, the shared
inbound task queue (entries are tasks or the `None` sentinel), the
configured maxima, and the tracked pid pool. -/
structure ProcessCompositor where
  sync_workers : List WorkerRecord
  async_workers : List WorkerRecord
  task_queue : List (Option Task)
  max_workers : Nat
  max_async_workers : Nat
  pid_pool : List Nat
  deriving Repr

/-- `ProcessCompositor._terminate_non_busy_workers`: terminates and evicts
every worker whose state is IDLE or STOPPED, removing its pid from the
tracked pool. -/
def ProcessCompositor.terminate_non_busy_workers (c : ProcessCompositor) : ProcessCompositor :=
  { c with
    sync_workers := c.sync_workers.filter (fun r => !r.nonBusy)
    async_workers := c.async_workers.filter (fun r => !r.nonBusy)
    pid_pool := c.pid_pool.filter (fun p =>
      !((c.sync_workers ++ c.async_workers).any (fun r => r.nonBusy && r.pid == p))) }

/-- Placement loop of `_dispatch_task` over the async worker list: two
separate `if` tests per record — an IDLE worker gets the task put on its
queue, and a STOPPED worker is resumed and gets the task. -/
def placeAsync (task : Task) (rs : List WorkerRecord) : List WorkerRecord :=
  rs.map (fun r =>
    let r1 := if r.state = .IDLE then r.put task.id else r
    if r1.state = .STOPPED then (r1.resume).put task.id else r1)

/-- Placement loop of `_dispatch_task` over the sync worker list: `if` IDLE
/ `elif` STOPPED per record. -/
def placeSync (task : Task) (rs : List WorkerRecord) : List WorkerRecord :=
  rs.map (fun r =>
    if r.state = .IDLE then r.put task.id
    else if r.state = .STOPPED then (r.resume).put task.id
    else r)

/-- `ProcessCompositor._dispatch_task`: when the CPU check fires, first
terminate all non-busy workers; pop the head of the shared task queue
(outer `none` models `task_queue.get()` blocking on an empty queue; the
`None` sentinel makes the method return); place the task on every matching
IDLE/STOPPED worker of its kind; then, when `len(workers) + 1 < max` for
the matching kind, create a fresh IDLE worker (pid `fresh_pid`) holding the
task, and otherwise raise `RuntimeError` (the two message strings are
joined without a space in the source).  Mutations made before the raise
survive it, so the updated compositor is returned together with the
optional raised exception. -/
def ProcessCompositor.dispatch_task (c : ProcessCompositor) (cpu_high : Bool)
    (fresh_pid : Nat) : Option (ProcessCompositor × Option PyExc) :=
  let c := if cpu_high then c.terminate_non_busy_workers else c
  match c.task_queue with
  | [] => none
  | Option.none :: rest => some ({ c with task_queue := rest }, Option.none)
  | some task :: rest =>
    let c := { c with task_queue := rest }
    let c :=
      if task.is_async then
        { c with async_workers := placeAsync task c.async_workers }
      else
        { c with sync_workers := placeSync task c.sync_workers }
    if task.is_async ∧ c.async_workers.length + 1 < c.max_async_workers then
      let record : WorkerRecord :=
        { pid := fresh_pid, is_async := true, state := .IDLE,
          stop_event := false, task_queue := [task.id] }
      let c2 := { c with
        async_workers := c.async_workers ++ [record]
        pid_pool := c.pid_pool ++ [fresh_pid] }
      some (c2, Option.none)
    else if ¬task.is_async ∧ c.sync_workers.length + 1 < c.max_workers then
      let record : WorkerRecord :=
        { pid := fresh_pid, is_async := false, state := .IDLE,
          stop_event := false, task_queue := [task.id] }
      let c2 := { c with
        sync_workers := c.sync_workers ++ [record]
        pid_pool := c.pid_pool ++ [fresh_pid] }
      some (c2, Option.none)
    else if task.is_async then
      some (c, some (.runtimeError
        "All async workers are busy and no new async workers can be created.Routing task to cached task queue."))
    else
      some (c, some (.runtimeError
        "All workers are busy and no new workers can be created.Routing task to cached task queue."))

/-- Lookup table `time_type_dict` from `src/source/Core/CoreUtils.py`. -/
def time_type_dict : List (String × Nat) :=
  [("s", 1), ("seconds", 1), ("second", 1),
   ("m", 60), ("minutes", 60), ("minute", 60),
   ("h", 60 * 60), ("hours", 60 * 60), ("hour", 60 * 60),
   ("d", 60 * 60 * 24), ("days", 60 * 60 * 24), ("day", 60 * 60 * 24)]

/-- Accumulating pass behind `pySplit`: `cur` holds the characters of the
current (reversed) token. -/
def splitWsAux (cur : List Char) : List Char → List String
  | [] => if cur.isEmpty then [] else [String.mk cur.reverse]
  | ch :: rest =>
    if ch.isWhitespace then
      if cur.isEmpty then splitWsAux [] rest
      else String.mk cur.reverse :: splitWsAux [] rest
    else splitWsAux (ch :: cur) rest

/-- Python `str.split()` with no separator: split on whitespace runs,
discarding empty pieces. -/
def pySplit (s : String) : List String :=
  splitWsAux [] s.toList

/-- Python `str.isdigit()` on ASCII strings: non-empty and all digits. -/
def pyIsDigit (s : String) : Bool :=
  s.length != 0 && s.toList.all Char.isDigit

/-- Python `str.lower()` on ASCII strings. -/
def pyLower (s : String) : String :=
  String.mk (s.toList.map Char.toLower)

/-- Decimal accumulation behind `pyToNat`. -/
def pyToNatAux (acc : Nat) : List Char → Nat
  | [] => acc
  | c :: rest => pyToNatAux (acc * 10 + (c.toNat - 48)) rest

/-- Python `int(s)` for a digit string. -/
def pyToNat (s : String) : Nat :=
  pyToNatAux 0 s.toList

/-- `ProcessCompositor.covert_to_timeout`: parses an idle-timeout string.
After the two validation checks the source rebinds `amt` to the number
token and `amt_type` to the unit token; the hour/day rejection is the
Python substring test `amt_type.lower() in "days"` / `in "hours"`, and the
coefficient is looked up in `time_type_dict` with the number token
(`amt.lower()` after the rebinding), defaulting to 1. -/
def ProcessCompositor.covert_to_timeout (amt : String) : Except PyExc Nat :=
  let split_amt := pySplit amt
  if split_amt.length ≠ 2 then
    .error (.exception ("Invalid format: " ++ amt ++ ". Expected format: <number> <unit>"))
  else
    let num := split_amt.headD ""
    let unitTok := (split_amt.drop 1).headD ""
    if (time_type_dict.lookup unitTok).isNone || !pyIsDigit num then
      .error (.exception ("Invalid time unit: " ++ unitTok ++
        ". Expected one of: SECONDS, MINUTES, HOURS"))
    else if pyStrIn (pyLower unitTok) "days" || pyStrIn (pyLower unitTok) "hours" then
      .error (.exception "Days are not supported. Please use seconds, minutes")
    else
      .ok (pyToNat num * ((time_type_dict.lookup (pyLower num)).getD 1))

/-! Concrete fixtures used by the theorems below. -/

/-- A fresh synchronous task with no dependencies. -/
def taskA : Task := Task.init 0 "A" false [] none 0 none 0

/-- The task `taskA` after a worker posted the result `{"x": 5}`. -/
def taskADone : Task := taskA.put_result (.dict [("x", .int 5)])

/-- A task declaring the argument dependency list `["x"]`. -/
def taskB : Task := Task.init 1 "B" false [] none 0 (some ["x"]) 0

/-- A task declaring a dependency key absent from `taskADone`'s result. -/
def taskC : Task := Task.init 2 "C" false [] none 0 (some ["y"]) 0

/-- A fresh synchronous task. -/
def taskSyncR : Task := Task.init 3 "sync" false [] none 0 none 0

/-- A fresh asynchronous (coroutine) task. -/
def taskAsyncR : Task := Task.init 4 "coro" true [] none 0 none 0

/-- A completed task: result 9 stored and the completion event set. -/
def doneTail : Task := (Task.init 5 "T" false [] none 0 none 0).put_result (.int 9)

/-- A chain whose single (tail) task has already completed. -/
def doneChain : TaskChain :=
  { tasks := [doneTail], head := some doneTail, tail := some doneTail }

/-- First of two equal-priority tasks. -/
def taskU1 : Task := Task.init 1 "u1" false [] none 0 none 0

/-- Second of two equal-priority tasks. -/
def taskU2 : Task := Task.init 2 "u2" false [] none 0 none 0

/-- An idle synchronous worker with pid 11 and an empty private queue. -/
def idleW1 : WorkerRecord :=
  { pid := 11, is_async := false, state := .IDLE, stop_event := false, task_queue := [] }

/-- An idle synchronous worker with pid 12 and an empty private queue. -/
def idleW2 : WorkerRecord :=
  { pid := 12, is_async := false, state := .IDLE, stop_event := false, task_queue := [] }

/-- A synchronous task with identity 7 pending dispatch. -/
def task7 : Task := Task.init 7 "t7" false [] none 0 none 0

/-- A compositor with two idle synchronous workers, `max_workers = 2`, and
`task7` pending on the shared queue. -/
def comp0 : ProcessCompositor :=
  { sync_workers := [idleW1, idleW2], async_workers := [], task_queue := [some task7],
    max_workers := 2, max_async_workers := 2, pid_pool := [11, 12] }

/-! Theorems settling the claims. -/

/-- Claim C1 (code_bug evaluation): in a chain A→B where A completed with
result `{"x": 5}` and B declares `arg_deps = ["x"]`, `resolve()` succeeds
without copying anything — the identity test `self._prev_result is
Iterable` is false for an actual dict result — so B's keyword arguments
stay empty (B is not invoked with `x = 5`) although `resolved` is set; and
a dependency key absent from the predecessor's result (`taskC` depends on
`"y"`) raises no error at all instead of a dependency-resolution error. -/
theorem resolve_drops_dependency_values :
    (∃ tB', taskB.resolve taskADone = some (.ok tB') ∧
      tB'.kwargs = [] ∧ tB'.resolved = true) ∧
    (∃ tC', taskC.resolve taskADone = some (.ok tC') ∧
      tC'.kwargs = [] ∧ tC'.resolved = true) :=
  ⟨⟨_, rfl, rfl, rfl⟩, ⟨_, rfl, rfl, rfl⟩⟩

/-- Claim C2 (code_bug evaluation): `push_chain` evaluates
`scheduler.submit(task_chain.get())`.  On a freshly constructed chain A→B
the call `task_chain.get()` blocks forever on the tail's unfired completion
event, so nothing — in particular not the tail item — is ever submitted;
and on a chain whose tail completed with value 9 the submitted object is
the plain result value 9, not the tail `Task`. -/
theorem push_chain_blocks_and_submits_result_value :
    (TaskChain.init [taskA, taskB]).toOption.map CoreMultiprocessing.push_chain =
      some none ∧
    CoreMultiprocessing.push_chain doneChain = some (.ok (.val (.int 9))) :=
  ⟨rfl, rfl⟩

/-- Claim C3 counterexample: the result and error slots are not mutually
exclusive — after `put_result(1)` a following `put_error` still writes the
error slot, leaving both slots written — and for the value `None` the
second `put_result` is not a no-op, since the slot still holds the `None`
placeholder. -/
theorem result_error_slots_not_exclusive :
    (((taskA.put_result (.int 1)).put_exception (.valueError "boom")).result = .int 1 ∧
     ((taskA.put_result (.int 1)).put_exception (.valueError "boom")).exception =
       some (.valueError "boom")) ∧
    ((taskA.put_result .none).put_result (.int 5)).result = .int 5 :=
  ⟨⟨rfl, rfl⟩, rfl⟩

/-- Claim C3 as amended: a first `put_result(v)` with `v ≠ None` makes any
later `put_result` a no-op (the stored result remains `v`), `put_error` is
write-once unconditionally, and the two slots are written independently of
each other (no mutual exclusion: each write inspects only its own slot). -/
theorem put_result_write_once_amended (t : Task) (v v' : PyVal) (e e' : PyExc)
    (hv : v.isNone = false) (hr : t.result = .none) (he : t.exception = none) :
    ((t.put_result v).put_result v').result = v ∧
    ((t.put_exception e).put_exception e').exception = some e ∧
    (t.put_result v).exception = t.exception ∧
    (t.put_exception e).result = t.result := by
  have h1 : t.put_result v = { t with result := v, result_event := true } := by
    unfold Task.put_result
    rw [hr]
    rfl
  have h2 : t.put_exception e = { t with exception := some e, result_event := true } := by
    unfold Task.put_exception
    rw [he]
    rfl
  refine ⟨?_, ?_, ?_, ?_⟩
  · rw [h1]
    simp [Task.put_result, hv]
  · rw [h2]
    simp [Task.put_exception]
  · unfold Task.put_result; split <;> rfl
  · unfold Task.put_exception; split <;> rfl

/-- Witness for the amended claim C3 at a concrete task and values. -/
theorem put_result_write_once_amended_witness :
    ((taskA.put_result (.int 1)).put_result (.int 2)).result = .int 1 ∧
    ((taskA.put_exception (.valueError "a")).put_exception (.valueError "b")).exception =
      some (.valueError "a") ∧
    (taskA.put_result (.int 1)).exception = taskA.exception ∧
    (taskA.put_exception (.valueError "a")).result = taskA.result :=
  put_result_write_once_amended taskA (.int 1) (.int 2) (.valueError "a") (.valueError "b")
    rfl rfl rfl

/-- Claim C4 (code_bug evaluation): `Task.run` on a synchronous task
returns the coroutine object built by calling `self._run_async()` instead
of invoking the callable and returning its value, and on an asynchronous
task it returns — does not raise — a `RuntimeError` object. -/
theorem run_returns_instead_of_raising :
    taskSyncR.run = .ok (.coroutine taskSyncR) ∧
    taskAsyncR.run = .ok (.excObj (.runtimeError "Use scheduler to run coroutine tasks")) :=
  ⟨rfl, rfl⟩

/-- Claim C5: the effective priority read at time `t1` equals the base
priority plus the elapsed time since enqueue, is monotone between any two
read times `t1 ≤ t2`, and dominates the base priority for every read after
creation. -/
theorem priority_aging_monotone (idn : Nat) (nm : String) (isCo : Bool)
    (args : List PyVal) (kwargs : Option (List (String × PyVal))) (bp : ℚ)
    (deps : Option (List String)) (t0 t1 t2 : ℚ) (h01 : t0 ≤ t1) (h12 : t1 ≤ t2) :
    (Task.init idn nm isCo args kwargs bp deps t0).priority t1 = bp + (t1 - t0) ∧
    (Task.init idn nm isCo args kwargs bp deps t0).priority t1 ≤
      (Task.init idn nm isCo args kwargs bp deps t0).priority t2 ∧
    bp ≤ (Task.init idn nm isCo args kwargs bp deps t0).priority t1 := by
  refine ⟨?_, ?_, ?_⟩ <;> simp [Task.init, Task.priority] <;> linarith

/-- Witness for claim C5 at base priority 1 and times 0 ≤ 2 ≤ 5. -/
theorem priority_aging_monotone_witness :
    (Task.init 0 "w" false [] none 1 none 0).priority 2 = 1 + (2 - 0) ∧
    (Task.init 0 "w" false [] none 1 none 0).priority 2 ≤
      (Task.init 0 "w" false [] none 1 none 0).priority 5 ∧
    (1 : ℚ) ≤ (Task.init 0 "w" false [] none 1 none 0).priority 2 :=
  priority_aging_monotone 0 "w" false [] none 1 none 0 2 5 (by norm_num) (by norm_num)

/-- Claim C6 (code_bug evaluation): `TaskScheduler.submit` pushes
`(task.priority, task.priority, task)` — submitting two equal-priority
tasks stores the priority 3 as the middle component of both entries, while
`_counter`, though incremented to 2, appears nowhere in the queue, so no
monotonic sequence number breaks ties between equal priorities. -/
theorem submit_pushes_priority_twice :
    (((TaskScheduler.mk [] 0).submit taskU1 3).submit taskU2 3).pq =
      [(3, 3, 1), (3, 3, 2)] ∧
    (((TaskScheduler.mk [] 0).submit taskU1 3).submit taskU2 3).counter = 2 := by
  refine ⟨?_, rfl⟩
  simp [TaskScheduler.submit, Task.priority, taskU1, taskU2, Task.init]

/-- Claim C7 (code_bug evaluation): dispatching one synchronous task to a
pool of two idle synchronous workers (with `max_workers = 2`) hands the
task to BOTH workers' queues — there is no first-fit stop — creates no new
worker, and then still raises `RuntimeError` claiming all workers are
busy, even though the placement loop just handed the task over twice. -/
theorem dispatch_duplicates_task_and_raises :
    ∃ c', comp0.dispatch_task false 99 = some (c', some (.runtimeError
        "All workers are busy and no new workers can be created.Routing task to cached task queue.")) ∧
      c'.sync_workers.map WorkerRecord.task_queue = [[7], [7]] ∧
      c'.sync_workers.length = 2 ∧
      c'.pid_pool = [11, 12] :=
  ⟨_, rfl, rfl, rfl, rfl⟩

/-- Claim C9 (code_bug evaluation): the idle-timeout parser multiplies by a
coefficient looked up with the NUMBER token, so minutes are never scaled —
`"5 m"` and `"5 minutes"` both parse to 5, not 300 — and the seconds unit
`"s"` is rejected by the substring test `"s" in "days"`; hours are
rejected, and malformed strings fail, as claimed. -/
theorem covert_to_timeout_ignores_unit :
    ProcessCompositor.covert_to_timeout "5 m" = .ok 5 ∧
    ProcessCompositor.covert_to_timeout "5 minutes" = .ok 5 ∧
    ProcessCompositor.covert_to_timeout "1 s" =
      .error (.exception "Days are not supported. Please use seconds, minutes") ∧
    ProcessCompositor.covert_to_timeout "2 hours" =
      .error (.exception "Days are not supported. Please use seconds, minutes") ∧
    ProcessCompositor.covert_to_timeout "abc" =
      .error (.exception "Invalid format: abc. Expected format: <number> <unit>") :=
  ⟨rfl, rfl, rfl, rfl, rfl⟩

/-- Claim C10: once completion is signaled, `Task.get` raises the stored
exception whenever the exception slot is non-empty — regardless of the
result slot — and returns the stored result only when the exception slot is
empty. -/
theorem get_exception_precedence (t : Task) (h : t.result_event = true) :
    t.get = some (match t.exception with
                  | some e => Except.error e
                  | none => Except.ok t.result) := by
  unfold Task.get
  rw [h]
  simp

/-- Witness for claim C10 on a task whose result AND exception slots are
both written: the exception wins. -/
theorem get_exception_precedence_witness :
    ((taskA.put_result (.int 3)).put_exception (.valueError "boom")).get =
      some (.error (.valueError "boom")) :=
  get_exception_precedence ((taskA.put_result (.int 3)).put_exception (.valueError "boom")) rfl

@[simp] lemma set_next_id (t : Task) (x : Option Nat) : (t.set_next x).id = t.id := rfl

@[simp] lemma set_prev_id (t : Task) (x : Option Nat) : (t.set_prev x).id = t.id := rfl

@[simp] lemma set_next_past (t : Task) (x : Option Nat) : (t.set_next x).past = t.past := rfl

@[simp] lemma set_prev_past (t : Task) (x : Option Nat) : (t.set_prev x).past = x := rfl

@[simp] lemma set_next_next (t : Task) (x : Option Nat) : (t.set_next x).next = x := rfl

/-- The linking loop preserves the identities of the tasks it links. -/
lemma linkAux_map_id (l : List Task) :
    ∀ p : Task, (linkAux p l).map Task.id = p.id :: l.map Task.id := by
  induction l with
  | nil => intro p; rfl
  | cons b rest ih =>
    intro p
    simp [linkAux, ih]

/-- The first task of a linked run keeps the identity and predecessor link
of the task the run starts from. -/
lemma linkAux_head (p : Task) (l : List Task) :
    ∃ y, (linkAux p l).head? = some y ∧ y.id = p.id ∧ y.past = p.past := by
  cases l with
  | nil => exact ⟨p, rfl, rfl, rfl⟩
  | cons b rest => exact ⟨p.set_next (some b.id), rfl, rfl, rfl⟩

/-- Adjacent tasks of a linked run point at each other through
`next`/`past`. -/
lemma linkAux_chain (l : List Task) : ∀ p : Task,
    List.Chain' (fun x y => x.next = some y.id ∧ y.past = some x.id) (linkAux p l) := by
  induction l with
  | nil => intro p; simp [linkAux]
  | cons b rest ih =>
    intro p
    rw [linkAux, List.chain'_cons']
    refine ⟨?_, ih _⟩
    intro y hy
    obtain ⟨y', hh, hid, hpast⟩ := linkAux_head (b.set_prev (some p.id)) rest
    rw [hh] at hy
    simp only [Option.mem_some_iff] at hy
    subst hy
    simp only [set_prev_id] at hid
    simp only [set_prev_past] at hpast
    exact ⟨by rw [set_next_next, hid], by rw [hpast, set_next_id]⟩

/-- Linking preserves the identities of the given tasks. -/
lemma linkTasks_map_id (l : List Task) : (linkTasks l).map Task.id = l.map Task.id := by
  cases l with
  | nil => rfl
  | cons a rest => exact linkAux_map_id rest a

/-- The linked task list is pairwise connected. -/
lemma linkTasks_chain (l : List Task) :
    List.Chain' (fun x y => x.next = some y.id ∧ y.past = some x.id) (linkTasks l) := by
  cases l with
  | nil => simp [linkTasks]
  | cons a rest => exact linkAux_chain rest a

lemma head?_map_id (l : List Task) : (l.map Task.id).head? = l.head?.map Task.id := by
  cases l <;> rfl

lemma getLast?_map_id : ∀ l : List Task, (l.map Task.id).getLast? = l.getLast?.map Task.id
  | [] => rfl
  | [_] => rfl
  | a :: b :: t => by
    rw [List.map_cons, List.map_cons, List.getLast?_cons_cons, ← List.map_cons,
      getLast?_map_id (b :: t), List.getLast?_cons_cons]

/-- Claim C8: constructing a chain from 16 or more tasks raises the
too-long `RuntimeError` at construction time, while 15 or fewer succeed:
the stored tasks are the given ones (by identity), the head is the first
and the tail the last given task, and consecutive tasks are linked
pairwise through `next`/`past`. -/
theorem chain_init_length_bound (args : List Task) :
    (15 < args.length → TaskChain.init args =
      .error (.runtimeError "Task chain too long. Maximum length is 15 tasks.")) ∧
    (args.length ≤ 15 → ∃ c, TaskChain.init args = .ok c ∧
      c.tasks.map Task.id = args.map Task.id ∧
      c.head.map Task.id = args.head?.map Task.id ∧
      c.tail.map Task.id = args.getLast?.map Task.id ∧
      List.Chain' (fun x y => x.next = some y.id ∧ y.past = some x.id) c.tasks) := by
  constructor
  · intro h
    unfold TaskChain.init
    rw [if_pos h]
  · intro h
    refine ⟨{ tasks := linkTasks args, head := (linkTasks args).head?,
              tail := (linkTasks args).getLast? }, ?_, ?_, ?_, ?_, ?_⟩
    · unfold TaskChain.init
      rw [if_neg (by omega)]
    · exact linkTasks_map_id args
    · show ((linkTasks args).head?).map Task.id = args.head?.map Task.id
      rw [← head?_map_id, linkTasks_map_id, head?_map_id]
    · show ((linkTasks args).getLast?).map Task.id = args.getLast?.map Task.id
      rw [← getLast?_map_id, linkTasks_map_id, getLast?_map_id]
    · exact linkTasks_chain args

/-- Witness for claim C8: a 16-task list is rejected, and the two-task list
`[taskA, taskB]` links into a chain with head `taskA` and tail `taskB`. -/
theorem chain_init_length_bound_witness :
    TaskChain.init (List.replicate 16 taskA) =
      .error (.runtimeError "Task chain too long. Maximum length is 15 tasks.") ∧
    (∃ c, TaskChain.init [taskA, taskB] = .ok c ∧
      c.tasks.map Task.id = ([taskA, taskB] : List Task).map Task.id ∧
      c.head.map Task.id = ([taskA, taskB] : List Task).head?.map Task.id ∧
      c.tail.map Task.id = ([taskA, taskB] : List Task).getLast?.map Task.id ∧
      List.Chain' (fun x y => x.next = some y.id ∧ y.past = some x.id) c.tasks) :=
  ⟨(chain_init_length_bound (List.replicate 16 taskA)).1 (by simp),
   (chain_init_length_bound [taskA, taskB]).2 (by simp)⟩

end TaskScheduling
